import Mathlib

/-!
# tweetr-api: the user controller over an in-memory store

A shallow embedding of `app/Controllers/Http/UserController.js`.  Every
controller method is a function from the store (and the authenticated user,
the request, the route parameters) to either an exception that leaves the
method, or the response that was sent together with the store afterwards.

The model classes `App/Models/User` and `App/Models/Tweet` and the tables
behind them are not part of the sources at hand; the store and the relations
are modelled from the data model of the specification.  The query builder
calls (`where`, `whereNot`, `whereIn`, `pick`, `firstOrFail`, `fetch`,
`attach`, `detach`, `save`) read and write that store.

A request field is read as `request.input` reads it: undefined for a key the
body does not have, null, or a text.  A driver decides for each kind of call
whether the call runs against the store or throws, so that what a method does
when a call throws can be stated for every call it makes.
-/

set_option autoImplicit false

namespace Tweetr

/-! ## Data model -/

/-- Exceptions a store, auth or hash call can raise. -/
inductive Exn where
  | modelNotFound
  | typeError
  | uniqueViolation
  | userNotFound
  | passwordMisMatch
  | illegalArguments
  | databaseError
  deriving DecidableEq, Repr

/-- Modelled from the spec: a row of the accounts table (`App/Models/User` is
not in the sources).  Identity fields, the password hash and the optional
profile fields; a field that holds null is `none`. -/
structure User where
  id : Nat
  name : Option String
  username : Option String
  email : Option String
  password : String
  location : Option String
  bio : Option String
  website_url : Option String
  deriving DecidableEq, Repr

/-- Modelled from the spec: a post (`App/Models/Tweet` is not in the sources):
author, body text, optional parent post, creation timestamp. -/
structure Tweet where
  id : Nat
  user_id : Nat
  tweet : String
  reply_to : Option Nat
  created_at : Nat
  deriving DecidableEq, Repr

/-- Modelled from the spec: a favorite, the pair (account, post). -/
structure Favorite where
  user_id : Nat
  tweet_id : Nat
  deriving DecidableEq, Repr

/-- Modelled from the spec: the backing store.  `follows` is the pivot table of
the social graph, one row `(follower, followee)` per edge.  Rows are kept in
table order. -/
structure Store where
  users : List User
  follows : List (Nat × Nat)
  tweets : List Tweet
  favorites : List Favorite
  deriving DecidableEq, Repr

/-- What `request.input(k)` yields: `undefined` when the body has no key `k`,
`null` when it carries an explicit null, the text otherwise. -/
inductive Input where
  | undefined
  | null
  | text (v : String)
  deriving DecidableEq, Repr

/-- The body fields a request may carry, each as `request.input` reads it. -/
structure Request where
  name : Input
  username : Input
  email : Input
  password : Input
  newPassword : Input
  location : Input
  bio : Input
  website_url : Input
  deriving DecidableEq, Repr

/-- The attributes of a user model instance in memory.  A profile attribute
that was assigned `undefined` is undefined: the JSON of the instance has no
such key, and the update `save` issues carries no such column. -/
structure UserInstance where
  id : Nat
  name : Input
  username : Input
  email : Input
  password : String
  location : Input
  bio : Input
  website_url : Input
  deriving DecidableEq, Repr

/-- The session credential handed out by the auth layer. -/
structure Token where
  uid : Nat
  deriving DecidableEq, Repr

/-- A post with the relations `user`, `favorites` and `replies` loaded. -/
structure TweetView where
  tweet : Tweet
  user : Option User
  favorites : List Favorite
  replies : List Tweet
  deriving DecidableEq, Repr

/-- A favorite with its `tweet` relation loaded. -/
structure FavoriteView where
  favorite : Favorite
  tweet : Option TweetView
  deriving DecidableEq, Repr

/-- The profile bundle: an account with `tweets`, `following`, `followers`,
`favorites` and `favorites.tweet` loaded. -/
structure UserBundle where
  user : User
  tweets : List TweetView
  following : List User
  followers : List User
  favorites : List FavoriteView
  deriving DecidableEq, Repr

/-- What the `data` key of a JSON envelope holds (`absent`: no such key). -/
inductive Payload where
  | absent
  | null
  | token (t : Token)
  | user (u : UserInstance)
  | bundle (b : UserBundle)
  | users (l : List User)
  | tweets (l : List TweetView)
  deriving DecidableEq, Repr

/-- The response that was sent: the HTTP status (200 unless
`response.status(n)` was called) and the JSON envelope. -/
structure Response where
  code : Nat
  status : String
  message : Option String
  data : Payload
  deriving DecidableEq, Repr

/-- The `Hash` provider of the framework, taken as given: `make` hashes a plain
value, `verify` checks a plain value against a hash; either may reject. -/
structure HashProvider where
  make : Input → Except Exn String
  verify : Input → String → Except Exn Bool

/-- The calls the controller makes against the store and the auth layer. -/
inductive Call where
  | create
  | generate
  | attempt
  | firstOrFail
  | save
  | ids
  | pick
  | attach
  | detach
  | find
  | fetch
  deriving DecidableEq, Repr

/-- What the environment does to the calls of a request: `outcome c = some e`
makes the call `c` throw `e` (the database cannot be reached, the schema
rejects the statement), `outcome c = none` lets it run against the store. -/
structure Driver where
  outcome : Call → Option Exn

/-! ## Relations of the models -/

/-- Modelled from the spec: `user.following()`, the accounts this account
follows: the accounts joined with the pivot rows whose follower is `u`. -/
def User.following (s : Store) (u : User) : List User :=
  (s.follows.filter (fun e => e.1 = u.id)).flatMap
    (fun e => s.users.filter (fun v => v.id = e.2))

/-- Modelled from the spec: `user.followers()`, the accounts following this
account. -/
def User.followers (s : Store) (u : User) : List User :=
  (s.follows.filter (fun e => e.2 = u.id)).flatMap
    (fun e => s.users.filter (fun v => v.id = e.1))

/-- The query builder call `ids()`: the primary keys of the rows. -/
def ids (rows : List User) : List Nat :=
  rows.map (fun v => v.id)

/-- Modelled from the spec: the `user` relation of a post, its author. -/
def Tweet.user (s : Store) (t : Tweet) : Option User :=
  s.users.find? (fun v => v.id = t.user_id)

/-- Modelled from the spec: the `favorites` relation of a post. -/
def Tweet.favorites (s : Store) (t : Tweet) : List Favorite :=
  s.favorites.filter (fun f => f.tweet_id = t.id)

/-- Modelled from the spec: the `replies` relation of a post, the posts whose
parent it is. -/
def Tweet.replies (s : Store) (t : Tweet) : List Tweet :=
  s.tweets.filter (fun r => r.reply_to = some t.id)

/-- Loading `user`, `favorites` and `replies` on a post:
`.with("user").with("favorites").with("replies")`. -/
def Tweet.withRelations (s : Store) (t : Tweet) : TweetView :=
  { tweet := t, user := t.user s, favorites := t.favorites s, replies := t.replies s }

/-- Modelled from the spec: the `tweets` relation of an account. -/
def User.tweets (s : Store) (u : User) : List Tweet :=
  s.tweets.filter (fun t => t.user_id = u.id)

/-- Modelled from the spec: the `favorites` relation of an account. -/
def User.favorites (s : Store) (u : User) : List Favorite :=
  s.favorites.filter (fun f => f.user_id = u.id)

/-- Modelled from the spec: the `tweet` relation of a favorite. -/
def Favorite.tweet (s : Store) (f : Favorite) : Option Tweet :=
  s.tweets.find? (fun t => t.id = f.tweet_id)

/-- The chain of `with` calls shared by `profile` and `showProfile`. -/
def User.withRelations (s : Store) (u : User) : UserBundle :=
  { user := u
    tweets := (u.tweets s).map (Tweet.withRelations s)
    following := u.following s
    followers := u.followers s
    favorites := (u.favorites s).map
      (fun f => { favorite := f, tweet := (f.tweet s).map (Tweet.withRelations s) }) }

/-! ## Query builder and persistence calls -/

/-- The query builder call `pick(n)`: the first `n` rows by ascending primary
key. -/
def pick (n : Nat) (rows : List User) : List User :=
  (rows.insertionSort (fun a b => a.id ≤ b.id)).take n

/-- The static call `User.find(id)`: the row with that primary key, or null. -/
def User.find (s : Store) (id : Nat) : Option User :=
  s.users.find? (fun v => v.id = id)

/-- The query builder call `firstOrFail()` on a filtered accounts query: the
first matching row, an exception when there is none. -/
def firstOrFail (rows : List User) : Except Exn User :=
  match rows.head? with
  | some u => .ok u
  | none => .error .modelNotFound

/-- A call under a driver: the exception the driver imposes, or else the
result of the call on the store. -/
def Driver.run {α : Type} (D : Driver) (c : Call) (result : Except Exn α) : Except Exn α :=
  match D.outcome c with
  | some e => .error e
  | none => result

/-- The driver that lets every call through. -/
def calm : Driver :=
  { outcome := fun _ => none }

/-- The driver of an unreachable database: every call throws. -/
def down : Driver :=
  { outcome := fun _ => some .databaseError }

/-- An attribute of a loaded instance: the column, null for an empty one. -/
def Input.ofColumn (c : Option String) : Input :=
  match c with
  | none => .null
  | some v => .text v

/-- The column after an update that carries the attribute `i`: an undefined
attribute is not part of the update and the column keeps `old`, null empties
the column, a text replaces it. -/
def Input.over (i : Input) (old : Option String) : Option String :=
  match i with
  | .undefined => old
  | .null => none
  | .text v => some v

/-- The instance the ORM builds from a row. -/
def User.toInstance (u : User) : UserInstance :=
  { id := u.id
    name := Input.ofColumn u.name
    username := Input.ofColumn u.username
    email := Input.ofColumn u.email
    password := u.password
    location := Input.ofColumn u.location
    bio := Input.ofColumn u.bio
    website_url := Input.ofColumn u.website_url }

/-- Modelled from the spec: handle and email are unique.  Whether another row
than `id` already holds the value `v` in the column read by `col`. -/
def taken (s : Store) (id : Nat) (col : User → Option String) (v : Option String) : Bool :=
  v.isSome && s.users.any (fun r => r.id != id && col r == v)

/-- The update `save` issues, applied to one row: the attributes of `cur` that
differ from those the instance was loaded with (`orig`) are the columns of the
update, and of these the undefined ones are skipped. -/
def writeDirty (orig : User) (cur : UserInstance) (row : User) : User :=
  { id := row.id
    name := if cur.name = Input.ofColumn orig.name then row.name else cur.name.over row.name
    username := if cur.username = Input.ofColumn orig.username then row.username
      else cur.username.over row.username
    email := if cur.email = Input.ofColumn orig.email then row.email
      else cur.email.over row.email
    password := if cur.password = orig.password then row.password else cur.password
    location := if cur.location = Input.ofColumn orig.location then row.location
      else cur.location.over row.location
    bio := if cur.bio = Input.ofColumn orig.bio then row.bio else cur.bio.over row.bio
    website_url := if cur.website_url = Input.ofColumn orig.website_url then row.website_url
      else cur.website_url.over row.website_url }

/-- The instance call `user.save()` on a persisted instance that was loaded
from the row `orig` and has the attributes `cur` now: the changed attributes
are written to the row with the primary key of the instance, undefined ones
skipped; a changed handle or email that another account holds is rejected. -/
def User.save (s : Store) (orig : User) (cur : UserInstance) : Except Exn Store :=
  if (cur.username != Input.ofColumn orig.username
        && taken s orig.id (fun r => r.username) (cur.username.over none))
      || (cur.email != Input.ofColumn orig.email
        && taken s orig.id (fun r => r.email) (cur.email.over none)) then
    .error .uniqueViolation
  else
    .ok { s with
          users := s.users.map
            (fun row => if row.id = orig.id then writeDirty orig cur row else row) }

/-- The next value of the auto-increment primary key of the accounts table. -/
def nextId (s : Store) : Nat :=
  (s.users.map (fun v => v.id)).foldr max 0 + 1

/-- Modelled from the spec: `User.create(userData)`: the password is stored
only as a hash, a handle or email that is not unique is rejected, the new row
is appended and returned. -/
def User.create (H : HashProvider) (s : Store) (userData : Request) :
    Except Exn (User × Store) :=
  match H.make userData.password with
  | .error e => .error e
  | .ok h =>
    let id := nextId s
    if taken s id (fun r => r.username) (userData.username.over none)
        || taken s id (fun r => r.email) (userData.email.over none) then
      .error .uniqueViolation
    else
      let user : User :=
        { id := id, name := userData.name.over none,
          username := userData.username.over none,
          email := userData.email.over none, password := h,
          location := none, bio := none, website_url := none }
      .ok (user, { s with users := s.users ++ [user] })

/-- The auth call `auth.generate(user)`: a credential for that account. -/
def Auth.generate (user : User) : Except Exn Token :=
  .ok { uid := user.id }

/-- The auth call `auth.attempt(email, password)`: the account with that email
is looked up, the password verified against its hash, and a credential
generated; a missing account or a mismatch is an exception. -/
def Auth.attempt (H : HashProvider) (s : Store) (email password : Input) :
    Except Exn Token :=
  match email with
  | .text e =>
    match s.users.find? (fun v => v.email = some e) with
    | none => .error .userNotFound
    | some u =>
      match H.verify password u.password with
      | .error x => .error x
      | .ok false => .error .passwordMisMatch
      | .ok true => Auth.generate u
  | _ => .error .userNotFound

/-- Modelled from the spec: `user.following().attach(id)`: the edge
`(user, id)` is inserted unless the pivot table already holds it (edges are
unique on the pair). -/
def attach (s : Store) (u : User) (id : Nat) : Store :=
  if (u.id, id) ∈ s.follows then s
  else { s with follows := s.follows ++ [(u.id, id)] }

/-- Modelled from the spec: `user.following().detach(id)`: every pivot row
`(user, id)` is deleted. -/
def detach (s : Store) (u : User) (id : Nat) : Store :=
  { s with follows := s.follows.filter (fun e => ¬ (e.1 = u.id ∧ e.2 = id)) }

/-! ## UserController

Each method is given first under an arbitrary driver (`UserController.m`), so
that every call it makes can throw, and then as the run in which every call
goes through (`m`). -/

/-- The envelope `response.json(...)` sends with the default status. -/
def success (data : Payload) : Response :=
  { code := 200, status := "success", message := none, data := data }

/-- The envelope `response.status(400).json(...)` sends. -/
def failure (message : String) : Response :=
  { code := 400, status := "error", message := some message, data := .absent }

/-- The controller method `signup`: the account is created and a credential
generated inside `try`; the `catch` answers 400. -/
def UserController.signup (D : Driver) (H : HashProvider) (s : Store) (request : Request) :
    Except Exn (Response × Store) :=
  let userData := request
  match D.run .create (User.create H s userData) with
  | .error _ =>
    .ok (failure "There was a problem signin up. Please try again later.", s)
  | .ok (user, s1) =>
    match D.run .generate (Auth.generate user) with
    | .error _ =>
      .ok (failure "There was a problem signin up. Please try again later.", s1)
    | .ok token => .ok (success (.token token), s1)

/-- The controller method `login`: `auth.attempt` inside `try`; the `catch`
answers 400. -/
def UserController.login (D : Driver) (H : HashProvider) (s : Store) (request : Request) :
    Except Exn (Response × Store) :=
  match D.run .attempt (Auth.attempt H s request.email request.password) with
  | .error _ => .ok (failure "Invalid email and/or password", s)
  | .ok token => .ok (success (.token token), s)

/-- The controller method `profile`: the account with the id of the
authenticated user, relations loaded, fetched with `firstOrFail`; there is no
`try` around the query. -/
def UserController.profile (D : Driver) (s : Store) (auth : User) :
    Except Exn (Response × Store) :=
  match D.run .firstOrFail (firstOrFail (s.users.filter (fun v => v.id = auth.id))) with
  | .error e => .error e
  | .ok user => .ok (success (.bundle (user.withRelations s)), s)

/-- The six assignments at the head of `updateProfile`: each profile attribute
of the user instance takes `request.input` of its name, undefined when the
request has no such field. -/
def assignInputs (auth : User) (request : Request) : UserInstance :=
  { auth.toInstance with
    name := request.name
    username := request.username
    email := request.email
    location := request.location
    bio := request.bio
    website_url := request.website_url }

/-- The controller method `updateProfile`: the six profile attributes of the
authenticated user are assigned from the request and the user saved inside
`try`; the `catch` answers 400. -/
def UserController.updateProfile (D : Driver) (s : Store) (auth : User)
    (request : Request) : Except Exn (Response × Store) :=
  let user : UserInstance := assignInputs auth request
  match D.run .save (User.save s auth user) with
  | .error _ =>
    .ok (failure "There was a problem updating the profile. Please try again later.", s)
  | .ok s1 =>
    .ok ({ code := 200, status := "success", message := some "Profile updated!",
           data := .user user }, s1)

/-- The controller method `changePassword`: the `password` field is verified
against the hash of the authenticated user; a failed verification answers 400,
otherwise the hash of `newPassword` is stored.  There is no `try`. -/
def UserController.changePassword (D : Driver) (H : HashProvider) (s : Store)
    (auth : User) (request : Request) : Except Exn (Response × Store) :=
  let user := auth.toInstance
  match H.verify request.password user.password with
  | .error e => .error e
  | .ok false => .ok (failure "Current password could not be verified.", s)
  | .ok true =>
    match H.make request.newPassword with
    | .error e => .error e
    | .ok h =>
      match D.run .save (User.save s auth { user with password := h }) with
      | .error e => .error e
      | .ok s1 =>
        .ok ({ code := 200, status := "success", message := some "Password changed!",
               data := .absent }, s1)

/-- The controller method `showProfile`: as `profile`, for the account with
the handle `params.username`, inside `try`; the `catch` answers 400. -/
def UserController.showProfile (D : Driver) (s : Store) (username : String) :
    Except Exn (Response × Store) :=
  match D.run .firstOrFail
      (firstOrFail (s.users.filter (fun v => v.username = some username))) with
  | .error _ => .ok (failure "User not found", s)
  | .ok user => .ok (success (.bundle (user.withRelations s)), s)

/-- The controller method `usersToFollow`: three accounts other than the
authenticated user and the accounts it follows.  There is no `try`. -/
def UserController.usersToFollow (D : Driver) (s : Store) (auth : User) :
    Except Exn (Response × Store) :=
  let user := auth
  match D.run .ids (.ok (ids (user.following s))) with
  | .error e => .error e
  | .ok usersAlreadyFollowed =>
    match D.run .pick (.ok (pick 3 ((s.users.filter (fun v => v.id ≠ user.id)).filter
        (fun v => v.id ∉ usersAlreadyFollowed)))) with
    | .error e => .error e
    | .ok usersToFollow => .ok (success (.users usersToFollow), s)

/-- The controller method `follow`: `user_id` is the id the request carries in
its `user_id` field.  There is no `try`. -/
def UserController.follow (D : Driver) (s : Store) (auth : User) (user_id : Nat) :
    Except Exn (Response × Store) :=
  let user := auth
  match D.run .attach (.ok (attach s user user_id)) with
  | .error e => .error e
  | .ok s1 => .ok (success .null, s1)

/-- The controller method `unFollow`: `id` is the route parameter.  There is
no `try`. -/
def UserController.unFollow (D : Driver) (s : Store) (auth : User) (id : Nat) :
    Except Exn (Response × Store) :=
  let user := auth
  match D.run .detach (.ok (detach s user id)) with
  | .error e => .error e
  | .ok s1 => .ok (success .null, s1)

/-- The controller method `timeline`: the posts whose author is among the
followed accounts or the user itself, relations loaded, as the query returns
them.  `User.find` yields null for a missing row, and the call on null raises.
There is no `try`. -/
def UserController.timeline (D : Driver) (s : Store) (auth : User) :
    Except Exn (Response × Store) :=
  match D.run .find (.ok (User.find s auth.id)) with
  | .error e => .error e
  | .ok none => .error .typeError
  | .ok (some user) =>
    match D.run .ids (.ok (ids (user.following s))) with
    | .error e => .error e
    | .ok followed =>
      let followersIds := followed ++ [user.id]
      match D.run .fetch (.ok ((s.tweets.filter (fun t => t.user_id ∈ followersIds)).map
          (Tweet.withRelations s))) with
      | .error e => .error e
      | .ok tweets => .ok (success (.tweets tweets), s)

/-- The method `signup` when every call goes through. -/
def signup (H : HashProvider) (s : Store) (request : Request) :
    Except Exn (Response × Store) :=
  UserController.signup calm H s request

/-- The method `login` when every call goes through. -/
def login (H : HashProvider) (s : Store) (request : Request) :
    Except Exn (Response × Store) :=
  UserController.login calm H s request

/-- The method `profile` when every call goes through. -/
def profile (s : Store) (auth : User) : Except Exn (Response × Store) :=
  UserController.profile calm s auth

/-- The method `updateProfile` when every call goes through. -/
def updateProfile (s : Store) (auth : User) (request : Request) :
    Except Exn (Response × Store) :=
  UserController.updateProfile calm s auth request

/-- The method `changePassword` when every call goes through. -/
def changePassword (H : HashProvider) (s : Store) (auth : User) (request : Request) :
    Except Exn (Response × Store) :=
  UserController.changePassword calm H s auth request

/-- The method `showProfile` when every call goes through. -/
def showProfile (s : Store) (username : String) : Except Exn (Response × Store) :=
  UserController.showProfile calm s username

/-- The method `usersToFollow` when every call goes through. -/
def usersToFollow (s : Store) (auth : User) : Except Exn (Response × Store) :=
  UserController.usersToFollow calm s auth

/-- The method `follow` when every call goes through. -/
def follow (s : Store) (auth : User) (user_id : Nat) : Except Exn (Response × Store) :=
  UserController.follow calm s auth user_id

/-- The method `unFollow` when every call goes through. -/
def unFollow (s : Store) (auth : User) (id : Nat) : Except Exn (Response × Store) :=
  UserController.unFollow calm s auth id

/-- The method `timeline` when every call goes through. -/
def timeline (s : Store) (auth : User) : Except Exn (Response × Store) :=
  UserController.timeline calm s auth

/-! ## Reading a result -/

/-- The posts in the `data` of a response. -/
def Response.posts (r : Response) : List Tweet :=
  match r.data with
  | .tweets l => l.map (fun v => v.tweet)
  | _ => []

/-- The accounts in the `data` of a response. -/
def Response.accounts (r : Response) : List User :=
  match r.data with
  | .users l => l
  | _ => []

/-- Account `a` follows account `b`: the pivot table holds the edge and `b` is
an account of the store. -/
def Follows (s : Store) (a b : Nat) : Prop :=
  (a, b) ∈ s.follows ∧ ∃ v ∈ s.users, v.id = b

/-- An id is the primary key of an account of the store. -/
def Account (s : Store) (a : Nat) : Prop :=
  ∃ v ∈ s.users, v.id = a

/-- The authenticated user instance is the row the store holds under its
primary key. -/
def Loaded (s : Store) (auth : User) : Prop :=
  auth ∈ s.users ∧ ∀ row ∈ s.users, row.id = auth.id → row = auth

/-- The row of `auth` after a profile update that carries `request`: a field
the request has takes the value of the request, null included; a field the
request omits stays. -/
def updatedRow (auth : User) (request : Request) : User :=
  { auth with
    name := request.name.over auth.name
    username := request.username.over auth.username
    email := request.email.over auth.email
    location := request.location.over auth.location
    bio := request.bio.over auth.bio
    website_url := request.website_url.over auth.website_url }

/-! ## Sample data -/

/-- A hash provider for the examples: the hash of `p` is `h:p`.  `make`
rejects a value that is no text; `verify` answers false for one. -/
def sampleHash : HashProvider where
  make := fun p =>
    match p with
    | .text v => .ok ("h:" ++ v)
    | _ => .error .illegalArguments
  verify := fun p h =>
    match p with
    | .text v => .ok (decide (h = "h:" ++ v))
    | _ => .ok false

/-- Sample account A. -/
def alice : User :=
  { id := 1, name := some "Alice", username := some "alice", email := some "a@x.org",
    password := "h:rabbit", location := some "Oxford", bio := none, website_url := none }

/-- Sample account B. -/
def bob : User :=
  { id := 2, name := some "Bob", username := some "bob", email := some "b@x.org",
    password := "h:builder", location := none, bio := none, website_url := none }

/-- Sample account C. -/
def carol : User :=
  { id := 3, name := some "Carol", username := some "carol", email := some "c@x.org",
    password := "h:singer", location := none, bio := none, website_url := none }

/-- Sample account D. -/
def dave : User :=
  { id := 4, name := some "Dave", username := some "dave", email := some "d@x.org",
    password := "h:diver", location := none, bio := none, website_url := none }

/-- The post "hello" of account B. -/
def hello : Tweet :=
  { id := 1, user_id := 2, tweet := "hello", reply_to := none, created_at := 100 }

/-- A later post of account D. -/
def shout : Tweet :=
  { id := 2, user_id := 4, tweet := "look at me", reply_to := none, created_at := 200 }

/-- A post of account A, older than `diary2`. -/
def diary1 : Tweet :=
  { id := 3, user_id := 1, tweet := "monday", reply_to := none, created_at := 300 }

/-- A post of account A, newer than `diary1`. -/
def diary2 : Tweet :=
  { id := 4, user_id := 1, tweet := "tuesday", reply_to := none, created_at := 400 }

/-- The example of the specification: A follows B and C and not D; B posted
"hello", D posted too. -/
def sampleStore : Store :=
  { users := [alice, bob, carol, dave]
    follows := [(1, 2), (1, 3)]
    tweets := [hello, shout]
    favorites := [{ user_id := 3, tweet_id := 1 }] }

/-- A store in which account A wrote two posts, the older one first in the
table. -/
def diaryStore : Store :=
  { users := [alice, bob]
    follows := []
    tweets := [diary1, diary2]
    favorites := [] }

/-- A store without any row. -/
def emptyStore : Store :=
  { users := [], follows := [], tweets := [], favorites := [] }

/-- A request without any field. -/
def emptyRequest : Request :=
  { name := .undefined, username := .undefined, email := .undefined,
    password := .undefined, newPassword := .undefined, location := .undefined,
    bio := .undefined, website_url := .undefined }

/-- A password change whose `password` field is not the password of A. -/
def wrongGuess : Request :=
  { emptyRequest with password := .text "hatter", newPassword := .text "hare" }

/-- A password change that carries the password of A and no `newPassword`. -/
def noNewPassword : Request :=
  { emptyRequest with password := .text "rabbit" }

/-- A password change of A with both fields. -/
def newHare : Request :=
  { emptyRequest with password := .text "rabbit", newPassword := .text "hare" }

/-- A profile update that carries a name and nothing else. -/
def nameOnly : Request :=
  { emptyRequest with name := .text "Alice L." }

/-- A profile update that carries a name and an explicit null location. -/
def nameNoPlace : Request :=
  { emptyRequest with name := .text "Alice L.", location := .null }

/-! ## The methods when every call goes through -/

theorem run_calm {α : Type} (c : Call) (x : Except Exn α) : calm.run c x = x :=
  rfl

theorem profile_calm (s : Store) (auth : User) :
    profile s auth =
      match firstOrFail (s.users.filter (fun v => v.id = auth.id)) with
      | .error e => .error e
      | .ok user => .ok (success (.bundle (user.withRelations s)), s) :=
  rfl

theorem showProfile_calm (s : Store) (username : String) :
    showProfile s username =
      match firstOrFail (s.users.filter (fun v => v.username = some username)) with
      | .error _ => .ok (failure "User not found", s)
      | .ok user => .ok (success (.bundle (user.withRelations s)), s) :=
  rfl

theorem follow_calm (s : Store) (auth : User) (user_id : Nat) :
    follow s auth user_id = .ok (success .null, attach s auth user_id) :=
  rfl

theorem unFollow_calm (s : Store) (auth : User) (id : Nat) :
    unFollow s auth id = .ok (success .null, detach s auth id) :=
  rfl

theorem timeline_calm (s : Store) (auth : User) :
    timeline s auth =
      match User.find s auth.id with
      | none => .error .typeError
      | some user =>
        .ok (success (.tweets
          ((s.tweets.filter (fun t => t.user_id ∈ ids (user.following s) ++ [user.id])).map
            (Tweet.withRelations s))), s) := by
  unfold timeline UserController.timeline
  simp only [run_calm]
  cases User.find s auth.id <;> rfl

theorem updateProfile_calm (s : Store) (auth : User) (request : Request) :
    updateProfile s auth request =
      match User.save s auth (assignInputs auth request) with
      | .error _ =>
        .ok (failure "There was a problem updating the profile. Please try again later.", s)
      | .ok s1 =>
        .ok ({ code := 200, status := "success", message := some "Profile updated!",
               data := .user (assignInputs auth request) }, s1) :=
  rfl

theorem changePassword_calm (H : HashProvider) (s : Store) (auth : User)
    (request : Request) :
    changePassword H s auth request =
      match H.verify request.password auth.password with
      | .error e => .error e
      | .ok false => .ok (failure "Current password could not be verified.", s)
      | .ok true =>
        match H.make request.newPassword with
        | .error e => .error e
        | .ok h =>
          match User.save s auth { auth.toInstance with password := h } with
          | .error e => .error e
          | .ok s1 =>
            .ok ({ code := 200, status := "success", message := some "Password changed!",
                   data := .absent }, s1) :=
  rfl

/-! ## Lemmas on the relations -/

theorem mem_following {s : Store} {u v : User} :
    v ∈ u.following s ↔ v ∈ s.users ∧ (u.id, v.id) ∈ s.follows := by
  unfold User.following
  simp only [List.mem_flatMap, List.mem_filter, decide_eq_true_eq]
  constructor
  · rintro ⟨⟨a, b⟩, ⟨hmem, ha⟩, hv, hb⟩
    simp only at ha hb
    subst ha hb
    exact ⟨hv, hmem⟩
  · rintro ⟨hv, hmem⟩
    exact ⟨(u.id, v.id), ⟨hmem, rfl⟩, hv, rfl⟩

theorem mem_ids_following {s : Store} {u : User} {b : Nat} :
    b ∈ ids (u.following s) ↔ Follows s u.id b := by
  unfold ids Follows
  simp only [List.mem_map, mem_following]
  constructor
  · rintro ⟨v, ⟨hv, hmem⟩, rfl⟩
    exact ⟨hmem, v, hv, rfl⟩
  · rintro ⟨hmem, v, hv, rfl⟩
    exact ⟨v, ⟨hv, hmem⟩, rfl⟩

theorem find_of_account {s : Store} {a : Nat} (h : Account s a) :
    ∃ user, User.find s a = some user ∧ user.id = a := by
  unfold User.find
  cases hf : s.users.find? (fun v => v.id = a) with
  | none =>
    obtain ⟨v, hv, hid⟩ := h
    rw [List.find?_eq_none] at hf
    exact absurd (by simpa using hid) (hf v hv)
  | some user =>
    exact ⟨user, rfl, by simpa using List.find?_some hf⟩

theorem mem_pick {n : Nat} {rows : List User} {v : User} (h : v ∈ pick n rows) :
    v ∈ rows := by
  unfold pick at h
  exact (List.mem_insertionSort _).mp (List.mem_of_mem_take h)

theorem timeline_eq {s : Store} {auth : User} (h : Account s auth.id) :
    timeline s auth = .ok (success (.tweets
      ((s.tweets.filter (fun t => t.user_id ∈ ids (auth.following s) ++ [auth.id])).map
        (Tweet.withRelations s))), s) := by
  obtain ⟨user, hf, hid⟩ := find_of_account h
  have hfol : user.following s = auth.following s := by
    unfold User.following
    rw [hid]
  rw [timeline_calm, hf]
  simp only [hfol, hid]

theorem posts_timeline {s : Store} {auth : User} {r : Response} {s1 : Store}
    (h : Account s auth.id) (hr : timeline s auth = .ok (r, s1)) :
    s1 = s ∧ r.posts =
      s.tweets.filter (fun t => t.user_id ∈ ids (auth.following s) ++ [auth.id]) := by
  rw [timeline_eq h] at hr
  simp only [Except.ok.injEq, Prod.mk.injEq] at hr
  obtain ⟨hr, hs⟩ := hr
  subst hr hs
  refine ⟨rfl, ?_⟩
  simp only [Response.posts, success, List.map_map]
  conv_rhs => rw [← List.map_id (List.filter _ _)]
  rfl

theorem mem_posts_timeline {s : Store} {auth : User} {r : Response} {s1 : Store}
    (h : Account s auth.id) (hr : timeline s auth = .ok (r, s1)) (P : Tweet) :
    P ∈ r.posts ↔ P ∈ s.tweets ∧ (P.user_id = auth.id ∨ Follows s auth.id P.user_id) := by
  rw [(posts_timeline h hr).2]
  simp only [List.mem_filter, List.mem_append, List.mem_singleton, decide_eq_true_eq,
    mem_ids_following]
  tauto

/-! ## Suggestions -/

/-- C1: for every store and every authenticated account, `usersToFollow`
answers with a list of at most three accounts of the store, none of which is
the account itself, and none of which is the head of a follow edge leaving the
account. -/
theorem usersToFollow_excludes (s : Store) (auth : User) :
    ∃ r, usersToFollow s auth = .ok (r, s) ∧ r.code = 200 ∧ r.status = "success" ∧
      r.accounts.length ≤ 3 ∧
      (∀ v ∈ r.accounts, v ∈ s.users ∧ v.id ≠ auth.id ∧ (auth.id, v.id) ∉ s.follows ∧
        ¬ Follows s auth.id v.id) := by
  refine ⟨_, rfl, rfl, rfl, ?_, ?_⟩
  · simp only [Response.accounts, success, pick]
    exact List.length_take_le 3 _
  · intro v hv
    simp only [Response.accounts, success] at hv
    have hmem := mem_pick hv
    simp only [List.mem_filter, decide_eq_true_eq, decide_not, Bool.not_eq_true',
      decide_eq_false_iff_not] at hmem
    obtain ⟨⟨hu, hne⟩, hnot⟩ := hmem
    have hedge : (auth.id, v.id) ∉ s.follows := by
      intro hin
      exact hnot (mem_ids_following.mpr ⟨hin, v, hu, rfl⟩)
    exact ⟨hu, hne, hedge, fun hf => hedge hf.1⟩

/-! ## Timeline -/

theorem account_alice_sample : Account sampleStore alice.id :=
  ⟨alice, List.mem_cons_self _ _, rfl⟩

theorem account_alice_diary : Account diaryStore alice.id :=
  ⟨alice, List.mem_cons_self _ _, rfl⟩

/-- C2: for every store and every account A of it, `timeline` answers without
changing the store, and a post is in the returned data exactly when it is a
post of the store whose author is A itself or an account A follows. -/
theorem timeline_authors (s : Store) (auth : User) (h : Account s auth.id) :
    ∃ r, timeline s auth = .ok (r, s) ∧ r.code = 200 ∧ r.status = "success" ∧
      ∀ P, P ∈ r.posts ↔
        P ∈ s.tweets ∧ (P.user_id = auth.id ∨ Follows s auth.id P.user_id) := by
  have heq := timeline_eq h
  exact ⟨_, heq, rfl, rfl, fun P => mem_posts_timeline h heq P⟩

/-- The example of the specification as an instance of C2: A follows B and C
and not D; the timeline of A holds the post "hello" of B, with its author, its
favorites and its replies loaded, and no post of D. -/
theorem timeline_authors_witness :
    Account sampleStore alice.id ∧
      ∃ r, timeline sampleStore alice = .ok (r, sampleStore) ∧
        r.data = .tweets [{ tweet := hello, user := some bob,
                            favorites := [{ user_id := 3, tweet_id := 1 }], replies := [] }] ∧
        hello ∈ r.posts ∧ ∀ P ∈ r.posts, P.user_id ≠ dave.id := by
  refine ⟨account_alice_sample, ?_⟩
  obtain ⟨r, hr, _, _, hiff⟩ := timeline_authors sampleStore alice account_alice_sample
  refine ⟨r, hr, ?_, ?_, ?_⟩
  · have hrun : timeline sampleStore alice = .ok (success (.tweets
        [{ tweet := hello, user := some bob,
           favorites := [{ user_id := 3, tweet_id := 1 }], replies := [] }]), sampleStore) :=
      rfl
    rw [hrun] at hr
    simp only [Except.ok.injEq, Prod.mk.injEq, and_true] at hr
    rw [← hr]
    rfl
  · refine (hiff hello).mpr ⟨List.mem_cons_self _ _, Or.inr ⟨?_, bob, ?_, rfl⟩⟩
    · exact List.mem_cons_self _ _
    · exact List.mem_cons_of_mem _ (List.mem_cons_self _ _)
  · intro P hP hD
    rcases ((hiff P).mp hP).2 with hself | ⟨hedge, _⟩
    · rw [hD] at hself
      exact absurd hself (by decide)
    · rw [hD] at hedge
      exact absurd hedge (by decide)

/-- C3, as stated, fails when an account unfollows itself: after
`unFollow(A, A)` the timeline of A still holds the posts A wrote. -/
theorem unFollow_self_keeps_posts :
    ∃ r1 s1 r2, unFollow diaryStore alice alice.id = .ok (r1, s1) ∧
      timeline s1 alice = .ok (r2, s1) ∧
      diary1 ∈ r2.posts ∧ diary1.user_id = alice.id := by
  refine ⟨_, _, _, rfl, timeline_eq ⟨alice, List.mem_cons_self _ _, rfl⟩, ?_, rfl⟩
  decide

/-- C3, amended: for every store, every account A of it and every B other
than A, after `unFollow(A, B)` the timeline of A holds no post written by B,
and computing the timeline again on the state it leaves gives the same
result. -/
theorem unFollow_removes_posts (s : Store) (auth : User) (b : Nat)
    (hA : Account s auth.id) (hne : b ≠ auth.id) :
    ∃ r1 s1 r2 s2, unFollow s auth b = .ok (r1, s1) ∧ r1 = success .null ∧
      timeline s1 auth = .ok (r2, s2) ∧
      (∀ P ∈ r2.posts, P.user_id ≠ b) ∧
      timeline s2 auth = .ok (r2, s2) := by
  have hA1 : Account (detach s auth b) auth.id := hA
  have heq := timeline_eq hA1
  refine ⟨_, _, _, _, rfl, rfl, heq, ?_, heq⟩
  intro P hP hb
  rcases ((mem_posts_timeline hA1 heq P).mp hP).2 with hself | ⟨hedge, _⟩
  · exact hne (hb ▸ hself)
  · simp only [detach, List.mem_filter, decide_eq_true_eq] at hedge
    exact hedge.2 ⟨trivial, hb⟩

/-- An instance of the amended C3: A unfollows B in the example store. -/
theorem unFollow_removes_posts_witness :
    Account sampleStore alice.id ∧ bob.id ≠ alice.id ∧
      ∃ r1 s1 r2 s2, unFollow sampleStore alice bob.id = .ok (r1, s1) ∧
        r1 = success .null ∧ timeline s1 alice = .ok (r2, s2) ∧
        (∀ P ∈ r2.posts, P.user_id ≠ bob.id) ∧
        timeline s2 alice = .ok (r2, s2) :=
  ⟨account_alice_sample, by decide,
    unFollow_removes_posts sampleStore alice bob.id account_alice_sample (by decide)⟩

theorem follows_attach (s : Store) (auth : User) (b : Nat) (e : Nat × Nat) :
    e ∈ (attach s auth b).follows ↔ e ∈ s.follows ∨ e = (auth.id, b) := by
  unfold attach
  split
  · rename_i hin
    constructor
    · exact Or.inl
    · rintro (h | h)
      · exact h
      · exact h ▸ hin
  · simp only [List.mem_append, List.mem_singleton]

theorem attach_of_mem {s : Store} {auth : User} {b : Nat} (h : (auth.id, b) ∈ s.follows) :
    attach s auth b = s := by
  unfold attach
  rw [if_pos h]

theorem users_attach (s : Store) (auth : User) (b : Nat) :
    (attach s auth b).users = s.users ∧ (attach s auth b).tweets = s.tweets ∧
      (attach s auth b).favorites = s.favorites := by
  unfold attach
  split <;> exact ⟨rfl, rfl, rfl⟩

/-- C4: for every store and all accounts A and B of it, `follow(A, B)`
succeeds and leaves the posts untouched, and the timeline of A computed
afterwards, also after further posts were added to the store, holds every post
of the store written by B. -/
theorem follow_shows_posts (s : Store) (auth : User) (b : Nat) (later : List Tweet)
    (hA : Account s auth.id) (hB : Account s b) :
    ∃ r1 s1, follow s auth b = .ok (r1, s1) ∧ s1.tweets = s.tweets ∧
      ∃ r2, timeline { s1 with tweets := s1.tweets ++ later } auth
          = .ok (r2, { s1 with tweets := s1.tweets ++ later }) ∧
        ∀ P ∈ s.tweets ++ later, P.user_id = b → P ∈ r2.posts := by
  obtain ⟨hu, ht, _⟩ := users_attach s auth b
  have hA1 : Account { attach s auth b with tweets := (attach s auth b).tweets ++ later }
      auth.id := by
    unfold Account
    simpa only [hu] using hA
  have heq := timeline_eq hA1
  refine ⟨_, _, rfl, ht, _, heq, ?_⟩
  intro P hP hb
  refine (mem_posts_timeline hA1 heq P).mpr ⟨?_, Or.inr ⟨?_, ?_⟩⟩
  · simpa only [ht] using hP
  · exact (follows_attach s auth b _).mpr (Or.inr (by rw [hb]))
  · rw [hb]
    unfold Account at hB
    simpa only [hu] using hB

/-- An instance of C4: A follows D in the example store, then D posts again. -/
theorem follow_shows_posts_witness :
    Account sampleStore alice.id ∧ Account sampleStore dave.id ∧
      ∃ r1 s1, follow sampleStore alice dave.id = .ok (r1, s1) ∧
        s1.tweets = sampleStore.tweets ∧
        ∃ r2, timeline { s1 with tweets := s1.tweets ++ [{ shout with id := 9 }] } alice
            = .ok (r2, { s1 with tweets := s1.tweets ++ [{ shout with id := 9 }] }) ∧
          ∀ P ∈ sampleStore.tweets ++ [{ shout with id := 9 }],
            P.user_id = dave.id → P ∈ r2.posts :=
  ⟨account_alice_sample, ⟨dave, by decide, rfl⟩,
    follow_shows_posts sampleStore alice dave.id [{ shout with id := 9 }]
      account_alice_sample ⟨dave, by decide, rfl⟩⟩

/-- C7: for every store and all A and B, `follow(A, B)` answers
`status: success, data: null`, a second `follow(A, B)` answers the same and
leaves the store as the first one left it; the edges afterwards are those
before together with `(A, B)`. -/
theorem follow_idempotent (s : Store) (auth : User) (b : Nat) :
    ∃ s1, follow s auth b = .ok (success .null, s1) ∧
      follow s1 auth b = .ok (success .null, s1) ∧
      ∀ e, e ∈ s1.follows ↔ e ∈ s.follows ∨ e = (auth.id, b) := by
  refine ⟨attach s auth b, rfl, ?_, follows_attach s auth b⟩
  have hin : (auth.id, b) ∈ (attach s auth b).follows :=
    (follows_attach s auth b _).mpr (Or.inr rfl)
  rw [follow_calm, attach_of_mem hin]

/-- C8: for every store and every account of it, `profile` and `timeline`
answer with the store unchanged, and `showProfile` does so for every handle. -/
theorem reads_leave_store (s : Store) (auth : User) (username : String)
    (h : Account s auth.id) :
    (∃ r, profile s auth = .ok (r, s)) ∧ (∃ r, showProfile s username = .ok (r, s)) ∧
      (∃ r, timeline s auth = .ok (r, s)) := by
  refine ⟨?_, ?_, _, timeline_eq h⟩
  · rw [profile_calm]
    unfold firstOrFail
    cases hh : (s.users.filter (fun v => v.id = auth.id)).head? with
    | some u => exact ⟨_, rfl⟩
    | none =>
      obtain ⟨v, hv, hid⟩ := h
      rw [List.head?_eq_none_iff, List.filter_eq_nil_iff] at hh
      exact absurd (by simpa using hid) (hh v hv)
  · rw [showProfile_calm]
    unfold firstOrFail
    cases (s.users.filter (fun v => v.username = some username)).head? with
    | some u => exact ⟨_, rfl⟩
    | none => exact ⟨_, rfl⟩

/-- An instance of C8 on the example store. -/
theorem reads_leave_store_witness :
    Account sampleStore alice.id ∧
      (∃ r, profile sampleStore alice = .ok (r, sampleStore)) ∧
      (∃ r, showProfile sampleStore "bob" = .ok (r, sampleStore)) ∧
      (∃ r, timeline sampleStore alice = .ok (r, sampleStore)) :=
  ⟨account_alice_sample, reads_leave_store sampleStore alice "bob" account_alice_sample⟩

/-- C9, as stated, fails: with the older post first in the table the timeline
returns the older post first. -/
theorem timeline_oldest_first :
    ∃ r, timeline diaryStore alice = .ok (r, diaryStore) ∧ r.posts = [diary1, diary2] ∧
      ¬ List.Chain' (fun p q : Tweet => q.created_at ≤ p.created_at) r.posts := by
  refine ⟨_, timeline_eq account_alice_diary, by decide, ?_⟩
  rw [show (success (.tweets ((diaryStore.tweets.filter
      (fun t => t.user_id ∈ ids (alice.following diaryStore) ++ [alice.id])).map
        (Tweet.withRelations diaryStore)))).posts = [diary1, diary2] from by decide]
  simp [List.Chain', diary1, diary2]

/-- C9, amended: for every store and every account of it, the posts `timeline`
returns are in the order of the rows of the posts table (they form a sublist of
it); they are in reverse-chronological order whenever the table is. -/
theorem timeline_store_order (s : Store) (auth : User) (h : Account s auth.id) :
    ∃ r, timeline s auth = .ok (r, s) ∧ List.Sublist r.posts s.tweets ∧
      (s.tweets.Pairwise (fun p q : Tweet => q.created_at ≤ p.created_at) →
        r.posts.Chain' (fun p q : Tweet => q.created_at ≤ p.created_at)) := by
  have heq := timeline_eq h
  have hsub : List.Sublist (success (.tweets
      ((s.tweets.filter (fun t => t.user_id ∈ ids (auth.following s) ++ [auth.id])).map
        (Tweet.withRelations s)))).posts s.tweets := by
    rw [(posts_timeline h heq).2]
    exact List.filter_sublist _
  exact ⟨_, heq, hsub, fun hp => (hp.sublist hsub).chain'⟩

/-- An instance of the amended C9 on the store with the two posts of A. -/
theorem timeline_store_order_witness :
    Account diaryStore alice.id ∧
      ∃ r, timeline diaryStore alice = .ok (r, diaryStore) ∧
        List.Sublist r.posts diaryStore.tweets ∧
        (diaryStore.tweets.Pairwise (fun p q : Tweet => q.created_at ≤ p.created_at) →
          r.posts.Chain' (fun p q : Tweet => q.created_at ≤ p.created_at)) :=
  ⟨account_alice_diary, timeline_store_order diaryStore alice account_alice_diary⟩

/-! ## Saving an instance -/

theorem loaded_alice_sample : Loaded sampleStore alice :=
  ⟨by decide, by decide⟩

theorem over_ofColumn (c old : Option String) : (Input.ofColumn c).over old = c := by
  cases c <;> rfl

theorem writeDirty_password (auth : User) (h : String) :
    writeDirty auth { auth.toInstance with password := h } auth
      = { auth with password := h } := by
  obtain ⟨i, n, u, e, p, l, b, w⟩ := auth
  simp only [writeDirty, User.toInstance, if_true, User.mk.injEq, true_and, and_true]
  split
  · rename_i hp
    exact hp.symm
  · rfl

theorem writeDirty_assign (auth : User) (request : Request) :
    writeDirty auth (assignInputs auth request) auth = updatedRow auth request := by
  obtain ⟨i, n, u, e, p, l, b, w⟩ := auth
  simp only [writeDirty, assignInputs, updatedRow, User.toInstance, if_true, User.mk.injEq,
    true_and]
  refine ⟨?_, ?_, ?_, ?_, ?_, ?_⟩ <;> split <;> rename_i hc <;>
    first
      | rfl
      | (rw [hc, over_ofColumn])

theorem loaded_map_writeDirty {s : Store} {auth : User} {cur : UserInstance}
    (hl : Loaded s auth) :
    Loaded { s with
        users := s.users.map
          (fun row => if row.id = auth.id then writeDirty auth cur row else row) }
      (writeDirty auth cur auth) := by
  obtain ⟨hmem, huniq⟩ := hl
  constructor
  · simp only [List.mem_map]
    exact ⟨auth, hmem, by rw [if_pos rfl]⟩
  · intro row hrow hrid
    simp only [List.mem_map] at hrow
    obtain ⟨old, hold, rfl⟩ := hrow
    by_cases hc : old.id = auth.id
    · rw [if_pos hc, huniq old hold hc]
    · rw [if_neg hc] at hrid
      exact absurd hrid hc

theorem save_ok {s s1 : Store} {auth : User} {cur : UserInstance}
    (h : User.save s auth cur = .ok s1) :
    s1 = { s with
        users := s.users.map
          (fun row => if row.id = auth.id then writeDirty auth cur row else row) } := by
  unfold User.save at h
  split at h
  · exact absurd h (by simp)
  · simp only [Except.ok.injEq] at h
    exact h.symm

theorem save_password {s : Store} {auth : User} (h : String) :
    User.save s auth { auth.toInstance with password := h } = .ok { s with
        users := s.users.map (fun row =>
          if row.id = auth.id then writeDirty auth { auth.toInstance with password := h } row
          else row) } := by
  unfold User.save
  simp [User.toInstance]

/-! ## Password change -/

/-- C5: for every hash provider, store, authenticated account and request:
when the `password` field does not verify against the hash of the account,
`changePassword` answers 400 with status `error` and the store is the one
before; `changePassword` returns a changed store only when verification
succeeded; and when it succeeded and `newPassword` was hashed, the row of the
account holds that hash afterwards. -/
theorem changePassword_guard (H : HashProvider) (s : Store) (auth : User)
    (request : Request) (hl : Loaded s auth) :
    (H.verify request.password auth.password = .ok false →
      changePassword H s auth request
        = .ok ({ code := 400, status := "error",
                 message := some "Current password could not be verified.",
                 data := .absent }, s)) ∧
    (∀ r s1, changePassword H s auth request = .ok (r, s1) → s1 ≠ s →
      H.verify request.password auth.password = .ok true ∧
        ∃ h, H.make request.newPassword = .ok h ∧ Loaded s1 { auth with password := h }) ∧
    (∀ h, H.verify request.password auth.password = .ok true →
      H.make request.newPassword = .ok h →
      ∃ s1, changePassword H s auth request
          = .ok ({ code := 200, status := "success", message := some "Password changed!",
                   data := .absent }, s1) ∧
        Loaded s1 { auth with password := h }) := by
  refine ⟨?_, ?_, ?_⟩
  · intro hv
    rw [changePassword_calm]
    simp only [hv, failure]
  · intro r s1 hr hne
    rw [changePassword_calm] at hr
    cases hv : H.verify request.password auth.password with
    | error e => simp [hv] at hr
    | ok ok =>
      cases ok with
      | false =>
        simp only [hv, Except.ok.injEq, Prod.mk.injEq] at hr
        exact absurd hr.2.symm hne
      | true =>
        refine ⟨rfl, ?_⟩
        simp only [hv] at hr
        cases hm : H.make request.newPassword with
        | error e => simp [hm] at hr
        | ok h =>
          simp only [hm, save_password, Except.ok.injEq, Prod.mk.injEq] at hr
          refine ⟨h, rfl, ?_⟩
          rw [← hr.2, ← writeDirty_password auth h]
          exact loaded_map_writeDirty hl
  · intro h hv hm
    rw [changePassword_calm]
    simp only [hv, hm, save_password]
    refine ⟨_, rfl, ?_⟩
    rw [← writeDirty_password auth h]
    exact loaded_map_writeDirty hl

/-- An instance of C5: account A of the example store sends a wrong current
password; the answer is 400 and the store is untouched. -/
theorem changePassword_guard_witness :
    Loaded sampleStore alice ∧
      changePassword sampleHash sampleStore alice wrongGuess
        = .ok ({ code := 400, status := "error",
                 message := some "Current password could not be verified.",
                 data := .absent }, sampleStore) :=
  ⟨loaded_alice_sample,
    (changePassword_guard sampleHash sampleStore alice wrongGuess
      loaded_alice_sample).1 rfl⟩

/-! ## Profile update -/

/-- C10, as stated, fails in the store: account A, with handle, email and
location set, sends an update that carries a name only; the update succeeds and
the row of A keeps its handle, its email and its location. -/
theorem updateProfile_keeps_omitted :
    ∃ r s1, updateProfile sampleStore alice nameOnly = .ok (r, s1) ∧
      r.status = "success" ∧
      nameOnly.username = .undefined ∧ nameOnly.email = .undefined ∧
      nameOnly.location = .undefined ∧
      ∃ row ∈ s1.users, row.id = alice.id ∧ row.username = some "alice" ∧
        row.email = some "a@x.org" ∧ row.location = some "Oxford" :=
  ⟨_, _, rfl, rfl, rfl, rfl, rfl, { alice with name := some "Alice L." },
    by decide, rfl, rfl, rfl, rfl⟩

/-- C10, amended: for every store, authenticated account and request, when
`updateProfile` answers with status `success`, the account in the answer holds,
in each of `name`, `username`, `email`, `location`, `bio` and `website_url`,
what `request.input` read for that field, undefined (no such key) when the
request omits it; the row of the account in the store takes the value of every
field the request carries, null included, and keeps its value in every field
the request omits; id and password hash are kept. -/
theorem updateProfile_writes_carried (s : Store) (auth : User) (request : Request)
    (r : Response) (s1 : Store) (hl : Loaded s auth)
    (hok : updateProfile s auth request = .ok (r, s1)) (hs : r.status = "success") :
    ∃ u row, r.data = .user u ∧
      u.name = request.name ∧ u.username = request.username ∧ u.email = request.email ∧
      u.location = request.location ∧ u.bio = request.bio ∧
      u.website_url = request.website_url ∧
      u.id = auth.id ∧ u.password = auth.password ∧
      Loaded s1 row ∧ row.id = auth.id ∧ row.password = auth.password ∧
      row.name = request.name.over auth.name ∧
      row.username = request.username.over auth.username ∧
      row.email = request.email.over auth.email ∧
      row.location = request.location.over auth.location ∧
      row.bio = request.bio.over auth.bio ∧
      row.website_url = request.website_url.over auth.website_url := by
  rw [updateProfile_calm] at hok
  cases hsave : User.save s auth (assignInputs auth request) with
  | error e =>
    simp only [hsave, Except.ok.injEq, Prod.mk.injEq] at hok
    rw [← hok.1] at hs
    simp [failure] at hs
  | ok s2 =>
    simp only [hsave, Except.ok.injEq, Prod.mk.injEq] at hok
    obtain ⟨hr, hs2⟩ := hok
    subst hr hs2
    refine ⟨assignInputs auth request, updatedRow auth request, rfl, rfl, rfl, rfl, rfl,
      rfl, rfl, rfl, rfl, ?_, rfl, rfl, rfl, rfl, rfl, rfl, rfl, rfl⟩
    rw [save_ok hsave, ← writeDirty_assign]
    exact loaded_map_writeDirty hl

/-- An instance of the amended C10: account A, located in Oxford, sends an
update that carries a name and a null location and no handle; the update
succeeds, the answer has the name and no handle, the row has the name, an
empty location and the handle it had. -/
theorem updateProfile_writes_carried_witness :
    Loaded sampleStore alice ∧ alice.location = some "Oxford" ∧
      ∃ r s1, updateProfile sampleStore alice nameNoPlace = .ok (r, s1) ∧
        r.status = "success" ∧
        ∃ u row, r.data = .user u ∧ u.name = .text "Alice L." ∧ u.username = .undefined ∧
          u.location = .null ∧ Loaded s1 row ∧ row.name = some "Alice L." ∧
          row.username = some "alice" ∧ row.location = none := by
  have hrun : ∃ r s1, updateProfile sampleStore alice nameNoPlace = .ok (r, s1) ∧
      r.status = "success" := ⟨_, _, rfl, rfl⟩
  obtain ⟨r, s1, hok, hs⟩ := hrun
  obtain ⟨u, row, hd, hn, hu, _, hloc, _, _, _, _, hload, _, _, hrn, hru, _, hrl, _⟩ :=
    updateProfile_writes_carried sampleStore alice nameNoPlace r s1 loaded_alice_sample
      hok hs
  exact ⟨loaded_alice_sample, rfl, r, s1, hok, hs, u, row, hd, hn, hu, hloc, hload, hrn,
    hru, hrl⟩

/-! ## Exceptions -/

/-- C6, as stated, fails for the six methods without `try`.  A password change
that carries the right password and no `newPassword` makes `Hash.make` reject,
and `changePassword` ends with that exception instead of a 400 answer; so does
`profile` when `firstOrFail` finds no row and `timeline` when `User.find`
yields null; and when the database cannot be reached, the store call of
`usersToFollow`, of `follow` and of `unFollow` throws and the method ends with
the exception. -/
theorem unguarded_calls_propagate :
    (sampleHash.verify noNewPassword.password alice.password = .ok true ∧
      sampleHash.make noNewPassword.newPassword = .error .illegalArguments ∧
      changePassword sampleHash sampleStore alice noNewPassword
        = .error .illegalArguments) ∧
    (firstOrFail (emptyStore.users.filter (fun v => v.id = alice.id))
        = .error .modelNotFound ∧
      profile emptyStore alice = .error .modelNotFound) ∧
    (User.find emptyStore alice.id = none ∧
      timeline emptyStore alice = .error .typeError) ∧
    (down.outcome .ids = some .databaseError ∧
      UserController.usersToFollow down sampleStore alice = .error .databaseError) ∧
    (down.outcome .attach = some .databaseError ∧
      UserController.follow down sampleStore alice bob.id = .error .databaseError) ∧
    (down.outcome .detach = some .databaseError ∧
      UserController.unFollow down sampleStore alice bob.id = .error .databaseError) :=
  ⟨⟨rfl, rfl, rfl⟩, ⟨rfl, rfl⟩, ⟨rfl, rfl⟩, ⟨rfl, rfl⟩, ⟨rfl, rfl⟩, ⟨rfl, rfl⟩⟩

/-- C6, amended: under every driver, `signup`, `login`, `updateProfile` and
`showProfile` always answer, and whenever a call inside their `try` throws, the
answer is 400 with status `error` and a message.  `profile`, `changePassword`,
`usersToFollow`, `follow`, `unFollow` and `timeline` have no `try`: whenever a
call they make throws, the method ends with that exception; `changePassword`
answers 400 when `Hash.verify` yields false. -/
theorem guarded_calls_answer_400 (D : Driver) (H : HashProvider) (s : Store)
    (auth : User) (request : Request) (username : String) (user_id : Nat) :
    ((∃ r s1, UserController.signup D H s request = .ok (r, s1)) ∧
      (∀ e, D.run .create (User.create H s request) = .error e →
        ∃ m, UserController.signup D H s request
          = .ok ({ code := 400, status := "error", message := some m, data := .absent }, s)) ∧
      (∀ user s1 e, D.run .create (User.create H s request) = .ok (user, s1) →
        D.run .generate (Auth.generate user) = .error e →
        ∃ m, UserController.signup D H s request
          = .ok ({ code := 400, status := "error", message := some m, data := .absent },
              s1))) ∧
    ((∃ r s1, UserController.login D H s request = .ok (r, s1)) ∧
      ∀ e, D.run .attempt (Auth.attempt H s request.email request.password) = .error e →
        ∃ m, UserController.login D H s request
          = .ok ({ code := 400, status := "error", message := some m, data := .absent }, s)) ∧
    ((∃ r s1, UserController.updateProfile D s auth request = .ok (r, s1)) ∧
      ∀ e, D.run .save (User.save s auth (assignInputs auth request)) = .error e →
        ∃ m, UserController.updateProfile D s auth request
          = .ok ({ code := 400, status := "error", message := some m, data := .absent }, s)) ∧
    ((∃ r s1, UserController.showProfile D s username = .ok (r, s1)) ∧
      ∀ e, D.run .firstOrFail
          (firstOrFail (s.users.filter (fun v => v.username = some username))) = .error e →
        ∃ m, UserController.showProfile D s username
          = .ok ({ code := 400, status := "error", message := some m, data := .absent }, s)) ∧
    (∀ e, D.run .firstOrFail (firstOrFail (s.users.filter (fun v => v.id = auth.id)))
        = .error e →
      UserController.profile D s auth = .error e) ∧
    ((H.verify request.password auth.password = .ok false →
        ∃ m, UserController.changePassword D H s auth request
          = .ok ({ code := 400, status := "error", message := some m, data := .absent }, s)) ∧
      (∀ e, H.verify request.password auth.password = .error e →
        UserController.changePassword D H s auth request = .error e) ∧
      (∀ e, H.verify request.password auth.password = .ok true →
        H.make request.newPassword = .error e →
        UserController.changePassword D H s auth request = .error e) ∧
      (∀ e h, H.verify request.password auth.password = .ok true →
        H.make request.newPassword = .ok h →
        D.run .save (User.save s auth { auth.toInstance with password := h }) = .error e →
        UserController.changePassword D H s auth request = .error e)) ∧
    ((∀ e, D.outcome .ids = some e →
        UserController.usersToFollow D s auth = .error e) ∧
      (∀ e, D.outcome .ids = none → D.outcome .pick = some e →
        UserController.usersToFollow D s auth = .error e)) ∧
    (∀ e, D.outcome .attach = some e →
      UserController.follow D s auth user_id = .error e) ∧
    (∀ e, D.outcome .detach = some e →
      UserController.unFollow D s auth user_id = .error e) ∧
    ((∀ e, D.outcome .find = some e → UserController.timeline D s auth = .error e) ∧
      (D.outcome .find = none → User.find s auth.id = none →
        UserController.timeline D s auth = .error .typeError) ∧
      (∀ e user, D.outcome .find = none → User.find s auth.id = some user →
        D.outcome .ids = some e → UserController.timeline D s auth = .error e) ∧
      (∀ e user, D.outcome .find = none → User.find s auth.id = some user →
        D.outcome .ids = none → D.outcome .fetch = some e →
        UserController.timeline D s auth = .error e)) := by
  refine ⟨⟨?_, ?_, ?_⟩, ⟨?_, ?_⟩, ⟨?_, ?_⟩, ⟨?_, ?_⟩, ?_, ⟨?_, ?_, ?_, ?_⟩, ⟨?_, ?_⟩, ?_, ?_,
    ⟨?_, ?_, ?_, ?_⟩⟩
  · simp only [UserController.signup]
    cases D.run .create (User.create H s request) with
    | error e => exact ⟨_, _, rfl⟩
    | ok p =>
      obtain ⟨user, s1⟩ := p
      simp only
      cases D.run .generate (Auth.generate user) with
      | error e => exact ⟨_, _, rfl⟩
      | ok token => exact ⟨_, _, rfl⟩
  · intro e he
    simp only [UserController.signup, he]
    exact ⟨_, rfl⟩
  · intro user s1 e hc hg
    simp only [UserController.signup, hc, hg]
    exact ⟨_, rfl⟩
  · simp only [UserController.login]
    cases D.run .attempt (Auth.attempt H s request.email request.password) with
    | error e => exact ⟨_, _, rfl⟩
    | ok token => exact ⟨_, _, rfl⟩
  · intro e he
    simp only [UserController.login, he]
    exact ⟨_, rfl⟩
  · simp only [UserController.updateProfile]
    cases D.run .save (User.save s auth (assignInputs auth request)) with
    | error e => exact ⟨_, _, rfl⟩
    | ok s1 => exact ⟨_, _, rfl⟩
  · intro e he
    simp only [UserController.updateProfile, he]
    exact ⟨_, rfl⟩
  · simp only [UserController.showProfile]
    cases D.run .firstOrFail
        (firstOrFail (s.users.filter (fun v => v.username = some username))) with
    | error e => exact ⟨_, _, rfl⟩
    | ok user => exact ⟨_, _, rfl⟩
  · intro e he
    simp only [UserController.showProfile, he]
    exact ⟨_, rfl⟩
  · intro e he
    simp only [UserController.profile, he]
  · intro hv
    have hv2 : H.verify request.password auth.toInstance.password = .ok false := hv
    simp only [UserController.changePassword, hv2]
    exact ⟨_, rfl⟩
  · intro e hv
    have hv2 : H.verify request.password auth.toInstance.password = .error e := hv
    simp only [UserController.changePassword, hv2]
  · intro e hv hm
    have hv2 : H.verify request.password auth.toInstance.password = .ok true := hv
    simp only [UserController.changePassword, hv2, hm]
  · intro e h hv hm hsave
    have hv2 : H.verify request.password auth.toInstance.password = .ok true := hv
    simp only [UserController.changePassword, hv2, hm, hsave]
  · intro e h1
    simp only [UserController.usersToFollow, Driver.run, h1]
  · intro e h1 h2
    simp only [UserController.usersToFollow, Driver.run, h1, h2]
  · intro e h1
    simp only [UserController.follow, Driver.run, h1]
  · intro e h1
    simp only [UserController.unFollow, Driver.run, h1]
  · intro e h1
    simp only [UserController.timeline, Driver.run, h1]
  · intro h1 hf
    simp only [UserController.timeline, Driver.run, h1, hf]
  · intro e user h1 hf h2
    simp only [UserController.timeline, Driver.run, h1, hf, h2]
  · intro e user h1 hf h2 h3
    simp only [UserController.timeline, Driver.run, h1, hf, h2, h3]

/-- An instance of the amended C6.  An unknown handle makes `firstOrFail`
throw and `showProfile` answers 400; with the database out of reach `login`
answers 400, and `changePassword`, whose `save` throws, and `follow`, whose
`attach` throws, end with the exception. -/
theorem guarded_calls_answer_400_witness :
    (∃ m, UserController.showProfile calm sampleStore "zed"
      = .ok ({ code := 400, status := "error", message := some m, data := .absent },
          sampleStore)) ∧
    (∃ m, UserController.login down sampleHash sampleStore newHare
      = .ok ({ code := 400, status := "error", message := some m, data := .absent },
          sampleStore)) ∧
    UserController.changePassword down sampleHash sampleStore alice newHare
      = .error .databaseError ∧
    UserController.follow down sampleStore alice bob.id = .error .databaseError :=
  ⟨(guarded_calls_answer_400 calm sampleHash sampleStore alice newHare "zed"
      bob.id).2.2.2.1.2 .modelNotFound rfl,
    (guarded_calls_answer_400 down sampleHash sampleStore alice newHare "zed"
      bob.id).2.1.2 .databaseError rfl,
    (guarded_calls_answer_400 down sampleHash sampleStore alice newHare "zed"
      bob.id).2.2.2.2.2.1.2.2.2 .databaseError "h:hare" rfl rfl rfl,
    (guarded_calls_answer_400 down sampleHash sampleStore alice newHare "zed"
      bob.id).2.2.2.2.2.2.2.1 .databaseError rfl⟩

end Tweetr
